import Mathlib

/-!
Verification of `scripts/analyze-engagement.py`: a shallow embedding of the
platform classifier (`is_twitter_post`), the distribution analyzer
(`analyze_distribution`), the heuristic-vs-API comparator inside
`analyze_by_source`, and the calibration portion of `main`, together with
theorems settling the specification's claims about them.

JSON field values are modelled by `JVal` (absent fields by `Option`),
Python strings by Lean `String` with the relevant methods acting on
`String.toList`, numeric scores by `Int`, and Python's floating-point
means by `Rat`.  Operations that can raise in Python (attribute access on
a non-string) return `Except String`.
-/

/-- A JSON value as it may appear in a record field: null, string, number
or boolean. -/
inductive JVal where
  | jnull : JVal
  | jstr : String → JVal
  | jnum : Int → JVal
  | jbool : Bool → JVal
deriving DecidableEq

/-- One calibration entry / impression record.  `none` means the key is
absent from the JSON object.  `heuristicScore` is an optional number;
`apiScore` may additionally be present-but-null (`some none`). -/
structure CalRecord where
  subreddit : Option JVal
  postId : Option JVal
  heuristicScore : Option Int
  apiScore : Option (Option Int)
deriving DecidableEq

/-- `post.get(key, '')`: the field value, defaulting to the empty string
when the key is absent. -/
def pyGet (field : Option JVal) : JVal :=
  field.getD (JVal.jstr "")

/-- Python `v.startswith(pre)`: defined on strings, raises
`AttributeError` on any other value. -/
def pyStartswith (v : JVal) (pre : String) : Except String Bool :=
  match v with
  | JVal.jstr s => Except.ok (List.isPrefixOf pre.toList s.toList)
  | _ => Except.error "AttributeError"

/-- Python `v.isdigit()`: true on a non-empty all-digit string, false on
other strings, raises `AttributeError` on non-strings. -/
def pyIsdigit (v : JVal) : Except String Bool :=
  match v with
  | JVal.jstr s => Except.ok (!s.toList.isEmpty && s.toList.all Char.isDigit)
  | _ => Except.error "AttributeError"

/-- Python `len(v)` on a string value; raises `TypeError` otherwise. -/
def pyLen (v : JVal) : Except String Nat :=
  match v with
  | JVal.jstr s => Except.ok s.toList.length
  | _ => Except.error "TypeError"

/-- `is_twitter_post` from the source: `@`-subreddit first, else a
more-than-15-character all-digit `postId`, with Python's raising method
calls propagated as `Except.error`. -/
def is_twitter_post (post : CalRecord) : Except String Bool :=
  let subreddit := pyGet post.subreddit
  let post_id := pyGet post.postId
  match pyStartswith subreddit "@" with
  | Except.error e => Except.error e
  | Except.ok sw =>
    if sw then Except.ok true
    else
      match pyIsdigit post_id with
      | Except.error e => Except.error e
      | Except.ok d =>
        match pyLen post_id with
        | Except.error e => Except.error e
        | Except.ok ln =>
          if d && decide (15 < ln) then Except.ok true else Except.ok false

/-- A field that is either absent or holds a string (the shapes the data
model allows for `subreddit` and `postId`). -/
def strOrAbsent : Option JVal → Bool
  | none => true
  | some (JVal.jstr _) => true
  | some _ => false

/-- The string a string-or-absent field contributes after `get(k, '')`. -/
def strField : Option JVal → String
  | some (JVal.jstr s) => s
  | _ => ""

/-- The pure decision rule of the classifier on the two extracted
strings. -/
def twitterRule (sub pid : String) : Bool :=
  List.isPrefixOf "@".toList sub.toList ||
    ((!pid.toList.isEmpty && pid.toList.all Char.isDigit) &&
      decide (15 < pid.toList.length))

lemma classifier_ite (b c : Bool) :
    (if b then (Except.ok true : Except String Bool)
     else if c then Except.ok true else Except.ok false) = Except.ok (b || c) := by
  cases b <;> cases c <;> rfl

lemma is_twitter_post_eval (r : CalRecord)
    (hs : strOrAbsent r.subreddit = true) (hp : strOrAbsent r.postId = true) :
    is_twitter_post r =
      Except.ok (twitterRule (strField r.subreddit) (strField r.postId)) := by
  obtain ⟨sub, pid, h, a⟩ := r
  have hsub : sub = none ∨ ∃ s, sub = some (JVal.jstr s) := by
    rcases sub with _ | v
    · exact Or.inl rfl
    · rcases v with _ | s | n | b <;> simp_all [strOrAbsent]
  have hpid : pid = none ∨ ∃ t, pid = some (JVal.jstr t) := by
    rcases pid with _ | w
    · exact Or.inl rfl
    · rcases w with _ | t | n | b <;> simp_all [strOrAbsent]
  have key : ∀ s t : String,
      is_twitter_post ⟨some (JVal.jstr s), some (JVal.jstr t), h, a⟩ =
        Except.ok (twitterRule s t) := by
    intro s t
    show (if List.isPrefixOf "@".toList s.toList then (Except.ok true : Except String Bool)
      else if (!t.toList.isEmpty && t.toList.all Char.isDigit) && decide (15 < t.toList.length)
        then Except.ok true else Except.ok false) = Except.ok (twitterRule s t)
    rw [classifier_ite]
    rfl
  rcases hsub with rfl | ⟨s, rfl⟩ <;> rcases hpid with rfl | ⟨t, rfl⟩
  · rfl
  · have := key "" t
    simpa [is_twitter_post, pyGet, strField] using this
  · have := key s ""
    simpa [is_twitter_post, pyGet, strField] using this
  · exact key s t

example : is_twitter_post ⟨some (JVal.jstr "funny"), some (JVal.jstr "abc123"), none, none⟩ =
    Except.ok false := by rfl

example : is_twitter_post ⟨some (JVal.jstr "funny"),
    some (JVal.jstr "1111111111111111"), none, none⟩ = Except.ok true := by rfl

example : is_twitter_post ⟨some JVal.jnull, none, none, none⟩ =
    Except.error "AttributeError" := by rfl

example : is_twitter_post ⟨some (JVal.jstr "@bob"), some (JVal.jstr ""), none, none⟩ =
    Except.ok true := by rfl

/-- The printed statistics block of `analyze_distribution`: total count,
min/max, mean/median, the six percentiles, and the three threshold
buckets. -/
structure StatsPrint where
  n : Nat
  minVal : Int
  maxVal : Int
  mean : Rat
  median : Int
  p10 : Int
  p25 : Int
  p50 : Int
  p75 : Int
  p90 : Int
  p95 : Int
  low : Nat
  medium : Nat
  high : Nat
deriving DecidableEq

/-- The summary record `analyze_distribution` returns to its caller. -/
structure Summary where
  n : Nat
  mean : Rat
  median : Int
  p75 : Int
  p90 : Int
  p95 : Int
deriving DecidableEq

/-- One block of text written to standard output, abstracted to the data
it displays. -/
inductive OutEvent where
  | noData : String → OutEvent
  | statsBlock : String → StatsPrint → OutEvent
  | compareBlock : String → Nat → Rat → Nat → Nat → Nat → OutEvent
  | platformBreakdown : Nat → Nat → OutEvent
  | bucketBlock : String → Nat → List (String × Nat) → OutEvent
deriving DecidableEq

/-- `sorted(scores)`: the ascending stable sort of the input. -/
def sortScores (scores : List Int) : List Int :=
  List.insertionSort (· ≤ ·) scores

/-- `min(int(n * p / 100), n - 1)`: the truncated, clamped nearest-rank
index used by the inner `percentile` function. -/
def percentileIdx (n p : Nat) : Nat :=
  min (n * p / 100) (n - 1)

/-- The inner `percentile(p)` closure: the sorted value at the clamped
nearest-rank index. -/
def percentileVal (sorted : List Int) (p : Nat) : Int :=
  sorted.getD (percentileIdx sorted.length p) 0

/-- All quantities `analyze_distribution` computes and prints for a
non-empty score list. -/
def statsOf (scores : List Int) : StatsPrint :=
  let sorted := sortScores scores
  let n := sorted.length
  ⟨n, sorted.getD 0 0, sorted.getD (n - 1) 0,
   (sorted.sum : Rat) / (n : Rat),
   sorted.getD (n / 2) 0,
   percentileVal sorted 10, percentileVal sorted 25, percentileVal sorted 50,
   percentileVal sorted 75, percentileVal sorted 90, percentileVal sorted 95,
   sorted.countP (fun s => decide (s < 40)),
   sorted.countP (fun s => decide (40 ≤ s ∧ s < 70)),
   sorted.countP (fun s => decide (70 ≤ s))⟩

/-- The dict `analyze_distribution` returns: n, mean, median, p75, p90,
p95. -/
def summaryOf (scores : List Int) : Summary :=
  ⟨(statsOf scores).n, (statsOf scores).mean, (statsOf scores).median,
   (statsOf scores).p75, (statsOf scores).p90, (statsOf scores).p95⟩

/-- `analyze_distribution(scores, label)`: on an empty list print a
"No data" line and return `None`; otherwise print the statistics block
and return the summary dict. -/
def analyze_distribution (scores : List Int) (label : String) :
    List OutEvent × Option Summary :=
  if scores.isEmpty then ([OutEvent.noData label], none)
  else ([OutEvent.statsBlock label (statsOf scores)], some (summaryOf scores))

/-- `[p['heuristicScore'] for p in calibration if 'heuristicScore' in p]`. -/
def heuristicScoresOf (calibration : List CalRecord) : List Int :=
  calibration.filterMap (fun p => p.heuristicScore)

/-- `[p['apiScore'] for p in calibration if 'apiScore' in p and
p['apiScore'] is not None]`. -/
def apiScoresOf (calibration : List CalRecord) : List Int :=
  calibration.filterMap (fun p =>
    match p.apiScore with
    | some (some a) => some a
    | _ => none)

/-- The `paired` list: `(heuristicScore, apiScore)` for records where
both keys are present and `apiScore` is not null. -/
def pairedOf (calibration : List CalRecord) : List (Int × Int) :=
  calibration.filterMap (fun p =>
    match p.heuristicScore, p.apiScore with
    | some h, some (some a) => some (h, a)
    | _, _ => none)

/-- `diffs = [api - heur for heur, api in paired]`. -/
def diffsOf (calibration : List CalRecord) : List Int :=
  (pairedOf calibration).map (fun pr => pr.2 - pr.1)

/-- `over = sum(1 for d in diffs if d > 10)`. -/
def overCount (calibration : List CalRecord) : Nat :=
  (diffsOf calibration).countP (fun d => decide (10 < d))

/-- `under = sum(1 for d in diffs if d < -10)`. -/
def underCount (calibration : List CalRecord) : Nat :=
  (diffsOf calibration).countP (fun d => decide (d < -10))

/-- `close = len(diffs) - over - under`. -/
def closeCount (calibration : List CalRecord) : Nat :=
  (diffsOf calibration).length - overCount calibration - underCount calibration

/-- `mean_diff = sum(diffs) / len(diffs)`. -/
def meanDiffOf (calibration : List CalRecord) : Rat :=
  ((diffsOf calibration).sum : Rat) / ((diffsOf calibration).length : Rat)

/-- `analyze_by_source(calibration, label_prefix)`: the two
distribution analyses over heuristic and API scores followed by the
comparison block, which is skipped when `paired` is empty; returns the
pair of summaries. -/
def analyze_by_source (calibration : List CalRecord) (lbl : String) :
    List OutEvent × (Option Summary × Option Summary) :=
  let hOut := analyze_distribution (heuristicScoresOf calibration)
    (lbl ++ " - Heuristic Scores")
  let aOut := analyze_distribution (apiScoresOf calibration)
    (lbl ++ " - API Scores")
  let cmp :=
    if (pairedOf calibration).isEmpty then []
    else [OutEvent.compareBlock lbl (pairedOf calibration).length
      (meanDiffOf calibration) (overCount calibration)
      (underCount calibration) (closeCount calibration)]
  (hOut.1 ++ aOut.1 ++ cmp, (hOut.2, aOut.2))

/-- A Python list comprehension filtering by a possibly-raising predicate:
the first exception raised, in element order, aborts the whole
comprehension. -/
def filterE {α : Type} (f : α → Except String Bool) :
    List α → Except String (List α)
  | [] => Except.ok []
  | p :: ps =>
    match f p with
    | Except.error e => Except.error e
    | Except.ok b =>
      match filterE f ps with
      | Except.error e => Except.error e
      | Except.ok rest => Except.ok (if b then p :: rest else rest)

/-- `not is_twitter_post(p)`, propagating exceptions. -/
def notTwitter (p : CalRecord) : Except String Bool :=
  match is_twitter_post p with
  | Except.error e => Except.error e
  | Except.ok b => Except.ok (!b)

/-- The calibration portion of `main`: split `calibration` into the
Twitter and Reddit partitions, print the platform breakdown, then run
`analyze_by_source` on the Reddit partition only if it is non-empty and
on the Twitter partition only if it is non-empty, in that order. -/
def main_calibration_report (calibration : List CalRecord) :
    Except String (List OutEvent) :=
  match filterE is_twitter_post calibration with
  | Except.error e => Except.error e
  | Except.ok twitter_cal =>
    match filterE notTwitter calibration with
    | Except.error e => Except.error e
    | Except.ok reddit_cal =>
      let redditOut :=
        if reddit_cal.isEmpty then []
        else (analyze_by_source reddit_cal "REDDIT").1
      let twitterOut :=
        if twitter_cal.isEmpty then []
        else (analyze_by_source twitter_cal "TWITTER").1
      Except.ok (OutEvent.platformBreakdown twitter_cal.length reddit_cal.length ::
        (redditOut ++ twitterOut))

/-- A session impression entry: the classifier fields plus the
pre-assigned bucket label (`none` when the key is absent). -/
structure PostRecord where
  subreddit : Option JVal
  postId : Option JVal
  bucket : Option String
deriving DecidableEq

/-- One session; the report consumes only its `posts` list
(`session.get('posts', [])`). -/
structure Session where
  posts : List PostRecord
deriving DecidableEq

/-- The classifier's view of an impression record: `is_twitter_post`
reads only the `subreddit` and `postId` keys. -/
def postToCal (p : PostRecord) : CalRecord :=
  ⟨p.subreddit, p.postId, none, none⟩

/-- `buckets[p.get('bucket', 'unknown')] += 1`: how many posts of the
partition carry the given bucket label, an absent label counting as
`"unknown"`. -/
def bucketCounts (posts : List PostRecord) (b : String) : Nat :=
  posts.countP (fun p => p.bucket.getD "unknown" == b)

/-- One partition of the session bucket report: an empty partition is
skipped silently (`continue`); otherwise the impression count is
printed together with the count of each of the labels low, medium,
high, unknown that occurs in the partition. -/
def bucketSection (label : String) (posts : List PostRecord) : List OutEvent :=
  if posts.isEmpty then []
  else
    [OutEvent.bucketBlock label posts.length
      ((["low", "medium", "high", "unknown"].filter
        (fun b => bucketCounts posts b != 0)).map
        (fun b => (b, bucketCounts posts b)))]

/-- The session portion of `main`: flatten all `sessions[*].posts` into
one combined list; when there are no posts the whole section is skipped
silently, otherwise the posts are partitioned by platform and the
Reddit then the Twitter bucket tallies are reported. -/
def session_bucket_report (sessions : List Session) :
    Except String (List OutEvent) :=
  let all_posts := (sessions.map Session.posts).flatten
  if all_posts.isEmpty then Except.ok []
  else
    match filterE (fun p => is_twitter_post (postToCal p)) all_posts with
    | Except.error e => Except.error e
    | Except.ok twitter_posts =>
      match filterE (fun p => notTwitter (postToCal p)) all_posts with
      | Except.error e => Except.error e
      | Except.ok reddit_posts =>
        Except.ok (bucketSection "Reddit" reddit_posts ++
          bucketSection "Twitter" twitter_posts)

example : ((analyze_distribution [10, 20, 30, 40] "X").2).map Summary.median =
    some 30 := by rfl

example (n : Nat) : n * 50 / 100 = n / 2 := by omega

example : percentileVal (sortScores [10, 20, 30, 40]) 75 = 40 := by rfl

lemma sortScores_sorted (scores : List Int) : (sortScores scores).Sorted (· ≤ ·) :=
  List.sorted_insertionSort _ scores

lemma sortScores_perm (scores : List Int) : List.Perm (sortScores scores) scores :=
  List.perm_insertionSort _ scores

lemma sortScores_length (scores : List Int) :
    (sortScores scores).length = scores.length :=
  (sortScores_perm scores).length_eq

lemma eq_sortScores {scores l : List Int} (hp : List.Perm l scores)
    (hs : l.Sorted (· ≤ ·)) : l = sortScores scores :=
  List.eq_of_perm_of_sorted (hp.trans (sortScores_perm scores).symm) hs
    (sortScores_sorted scores)

lemma getD_sorted_mono {l : List Int} (hs : l.Sorted (· ≤ ·)) {i j : Nat}
    (hij : i ≤ j) (hj : j < l.length) : l.getD i 0 ≤ l.getD j 0 := by
  have hi : i < l.length := lt_of_le_of_lt hij hj
  rw [List.getD_eq_getElem?_getD, List.getElem?_eq_getElem hi,
    List.getD_eq_getElem?_getD, List.getElem?_eq_getElem hj]
  simp only [Option.getD_some]
  have h2 : l.get ⟨i, hi⟩ ≤ l.get ⟨j, hj⟩ :=
    hs.rel_get_of_le (show (⟨i, hi⟩ : Fin l.length) ≤ ⟨j, hj⟩ from hij)
  simpa using h2

lemma percentileVal_eq (scores : List Int) (p : Nat) :
    percentileVal (sortScores scores) p =
      (sortScores scores).getD
        (min (scores.length * p / 100) (scores.length - 1)) 0 := by
  simp [percentileVal, percentileIdx, sortScores_length]

lemma percentileVal_mono (scores : List Int) (hne : scores ≠ []) {p q : Nat}
    (hpq : scores.length * p / 100 ≤ scores.length * q / 100) :
    percentileVal (sortScores scores) p ≤ percentileVal (sortScores scores) q := by
  have hn : 1 ≤ scores.length := List.length_pos.mpr hne
  rw [percentileVal_eq, percentileVal_eq]
  apply getD_sorted_mono (sortScores_sorted scores)
  · exact min_le_min hpq le_rfl
  · rw [sortScores_length]
    omega

lemma countP_bucket_split (l : List Int) :
    l.countP (fun s => decide (s < 40)) +
      l.countP (fun s => decide (40 ≤ s ∧ s < 70)) +
      l.countP (fun s => decide (70 ≤ s)) = l.length := by
  induction l with
  | nil => rfl
  | cons a t ih =>
    simp only [List.countP_cons, List.length_cons, decide_eq_true_eq]
    split_ifs <;> omega

lemma countP_band_split (l : List Int) :
    l.countP (fun d => decide (10 < d)) +
      l.countP (fun d => decide (d < -10)) +
      l.countP (fun d => decide (-10 ≤ d ∧ d ≤ 10)) = l.length := by
  induction l with
  | nil => rfl
  | cons a t ih =>
    simp only [List.countP_cons, List.length_cons, decide_eq_true_eq]
    split_ifs <;> omega

lemma pairedOf_length (cal : List CalRecord) :
    (pairedOf cal).length = cal.countP (fun p =>
      p.heuristicScore.isSome &&
        match p.apiScore with
        | some (some _) => true
        | _ => false) := by
  induction cal with
  | nil => rfl
  | cons p t ih =>
    simp only [pairedOf] at ih ⊢
    simp only [List.filterMap_cons, List.countP_cons]
    rcases hh : p.heuristicScore with _ | h
    · simp [hh, ih]
    · rcases ha : p.apiScore with _ | oa
      · simp [hh, ha, ih]
      · rcases oa with _ | a
        · simp [hh, ha, ih]
        · simp [hh, ha, ih]

lemma analyze_distribution_ne (scores : List Int) (lbl : String)
    (hne : scores ≠ []) :
    analyze_distribution scores lbl =
      ([OutEvent.statsBlock lbl (statsOf scores)], some (summaryOf scores)) := by
  have h : scores.isEmpty = false := by
    cases scores with
    | nil => exact absurd rfl hne
    | cons a t => rfl
  simp [analyze_distribution, h]

/-- The percentile field of the statistics block selected by `p`. -/
def pctField (st : StatsPrint) : Nat → Option Int
  | 10 => some st.p10
  | 25 => some st.p25
  | 50 => some st.p50
  | 75 => some st.p75
  | 90 => some st.p90
  | 95 => some st.p95
  | _ => none

/-- C3: for every non-empty score sequence, the reported median is the
element at index `n / 2` of the ascending-sorted sequence (the
upper-middle element for even `n`); the witness instantiates this at
`[10, 20, 30, 40]`, whose reported median is `30`, not `25`. -/
theorem c3_median_upper_middle (scores : List Int) (lbl : String)
    (hne : scores ≠ []) (l : List Int) (hp : List.Perm l scores)
    (hs : l.Sorted (· ≤ ·)) :
    ((analyze_distribution scores lbl).2).map Summary.median =
      some (l.getD (scores.length / 2) 0) := by
  have hl : l = sortScores scores := eq_sortScores hp hs
  subst hl
  rw [analyze_distribution_ne scores lbl hne]
  simp [summaryOf, statsOf, sortScores_length]

theorem c3_median_upper_middle_witness :
    ([10, 20, 30, 40] : List Int) ≠ [] ∧
    ((analyze_distribution [10, 20, 30, 40] "CAL").2).map Summary.median =
      some 30 := by
  constructor
  · decide
  · have h := c3_median_upper_middle [10, 20, 30, 40] "CAL" (by decide)
      [10, 20, 30, 40] (List.Perm.refl _) (by decide)
    exact h.trans (by decide)

/-- C4: for every non-empty score sequence and every
`p ∈ {10, 25, 50, 75, 90, 95}`, the analyzer's `percentile(p)` is the
ascending-sorted sequence's value at index `n * p / 100` (truncating)
clamped to at most `n - 1`, and the statistics block it prints carries
exactly these values. -/
theorem c4_percentile_nearest_rank (scores : List Int) (lbl : String)
    (hne : scores ≠ []) (l : List Int) (hp : List.Perm l scores)
    (hs : l.Sorted (· ≤ ·)) :
    (analyze_distribution scores lbl).1 =
      [OutEvent.statsBlock lbl (statsOf scores)] ∧
    ∀ p ∈ ([10, 25, 50, 75, 90, 95] : List Nat),
      pctField (statsOf scores) p =
        some (l.getD (min (scores.length * p / 100) (scores.length - 1)) 0) := by
  have hl : l = sortScores scores := eq_sortScores hp hs
  subst hl
  constructor
  · rw [analyze_distribution_ne scores lbl hne]
  · intro p hmem
    fin_cases hmem <;> simp [pctField, statsOf, percentileVal_eq]

theorem c4_percentile_nearest_rank_witness :
    (analyze_distribution [10, 20, 30, 40] "CAL").1 =
      [OutEvent.statsBlock "CAL" (statsOf [10, 20, 30, 40])] ∧
    pctField (statsOf [10, 20, 30, 40]) 75 = some 40 := by
  have h := c4_percentile_nearest_rank [10, 20, 30, 40] "CAL" (by decide)
    [10, 20, 30, 40] (List.Perm.refl _) (by decide)
  exact ⟨h.1, (h.2 75 (by decide)).trans (by decide)⟩

/-- C5: for every non-empty score sequence, the computed percentile
values are monotone: p10 ≤ p25 ≤ p50 ≤ p75 ≤ p90 ≤ p95. -/
theorem c5_percentile_monotone (scores : List Int) (hne : scores ≠ []) :
    (statsOf scores).p10 ≤ (statsOf scores).p25 ∧
    (statsOf scores).p25 ≤ (statsOf scores).p50 ∧
    (statsOf scores).p50 ≤ (statsOf scores).p75 ∧
    (statsOf scores).p75 ≤ (statsOf scores).p90 ∧
    (statsOf scores).p90 ≤ (statsOf scores).p95 := by
  have key : ∀ p q : Nat, scores.length * p ≤ scores.length * q →
      percentileVal (sortScores scores) p ≤ percentileVal (sortScores scores) q :=
    fun p q hpq => percentileVal_mono scores hne (Nat.div_le_div_right hpq)
  simp only [statsOf]
  exact ⟨key 10 25 (by omega), key 25 50 (by omega), key 50 75 (by omega),
    key 75 90 (by omega), key 90 95 (by omega)⟩

theorem c5_percentile_monotone_witness :
    (statsOf [10, 20, 30, 40]).p10 ≤ (statsOf [10, 20, 30, 40]).p25 ∧
    (statsOf [10, 20, 30, 40]).p25 ≤ (statsOf [10, 20, 30, 40]).p50 ∧
    (statsOf [10, 20, 30, 40]).p50 ≤ (statsOf [10, 20, 30, 40]).p75 ∧
    (statsOf [10, 20, 30, 40]).p75 ≤ (statsOf [10, 20, 30, 40]).p90 ∧
    (statsOf [10, 20, 30, 40]).p90 ≤ (statsOf [10, 20, 30, 40]).p95 :=
  c5_percentile_monotone [10, 20, 30, 40] (by decide)

/-- C6: for every score sequence the bucket counts
`low = count(s < 40)`, `medium = count(40 ≤ s < 70)`,
`high = count(70 ≤ s)` sum to `n`, and the boundary values 40 and 70
fall in medium and high respectively, never in low. -/
theorem c6_bucket_totals (scores : List Int) :
    (statsOf scores).low + (statsOf scores).medium + (statsOf scores).high =
      (statsOf scores).n ∧
    (statsOf scores).n = scores.length ∧
    (statsOf [40]).low = 0 ∧ (statsOf [40]).medium = 1 ∧
    (statsOf [70]).low = 0 ∧ (statsOf [70]).medium = 0 ∧
    (statsOf [70]).high = 1 := by
  refine ⟨?_, ?_, by decide, by decide, by decide, by decide, by decide⟩
  · simp only [statsOf]
    exact countP_bucket_split (sortScores scores)
  · simp only [statsOf]
    exact sortScores_length scores

/-- C10: for every non-empty score sequence, the returned median equals
the printed 50th percentile, because `n * 50 / 100 = n / 2` and
`n / 2 ≤ n - 1` for `n ≥ 1`, so the two indexings select the same sorted
element. -/
theorem c10_median_eq_p50 (scores : List Int) (lbl : String)
    (hne : scores ≠ []) :
    ((analyze_distribution scores lbl).2).map Summary.median =
      some ((statsOf scores).p50) ∧
    scores.length * 50 / 100 = scores.length / 2 ∧
    scores.length / 2 ≤ scores.length - 1 := by
  have hn : 1 ≤ scores.length := List.length_pos.mpr hne
  refine ⟨?_, by omega, by omega⟩
  rw [analyze_distribution_ne scores lbl hne]
  have hidx : min (scores.length * 50 / 100) (scores.length - 1) =
      scores.length / 2 := by omega
  simp [summaryOf, statsOf, percentileVal_eq, hidx, sortScores_length]

theorem c10_median_eq_p50_witness :
    (((analyze_distribution [10, 20, 30, 40] "CAL").2).map Summary.median =
      some ((statsOf [10, 20, 30, 40]).p50) ∧
     ([10, 20, 30, 40] : List Int).length * 50 / 100 =
       ([10, 20, 30, 40] : List Int).length / 2 ∧
     ([10, 20, 30, 40] : List Int).length / 2 ≤
       ([10, 20, 30, 40] : List Int).length - 1) ∧
    (statsOf ([10, 20, 30, 40] : List Int)).p50 = 30 :=
  ⟨c10_median_eq_p50 [10, 20, 30, 40] "CAL" (by decide), by decide⟩

/-- C7: the comparator pairs `(heuristicScore, apiScore)` exactly for
records with both fields present and `apiScore` non-null; with
`over = count(diff > 10)` and `under = count(diff < -10)`, the remainder
`close` is exactly the count of differences in the closed band
`[-10, 10]` and `over + under + close` equals the pair count; a
difference of exactly 11 is over, exactly 10 is within, exactly -11 is
under. -/
theorem c7_comparator_counts (cal : List CalRecord) :
    (overCount cal + underCount cal + closeCount cal = (pairedOf cal).length ∧
     closeCount cal = (diffsOf cal).countP (fun d => decide (-10 ≤ d ∧ d ≤ 10)) ∧
     (pairedOf cal).length = cal.countP (fun p =>
       p.heuristicScore.isSome &&
         match p.apiScore with
         | some (some _) => true
         | _ => false)) ∧
    overCount [(⟨none, none, some 0, some (some 11)⟩ : CalRecord)] = 1 ∧
    closeCount [(⟨none, none, some 0, some (some 10)⟩ : CalRecord)] = 1 ∧
    underCount [(⟨none, none, some 0, some (some (-11))⟩ : CalRecord)] = 1 := by
  have hsplit := countP_band_split (diffsOf cal)
  have hlen : (diffsOf cal).length = (pairedOf cal).length := by
    simp [diffsOf]
  refine ⟨⟨?_, ?_, pairedOf_length cal⟩, by decide, by decide, by decide⟩
  · simp only [overCount, underCount, closeCount] at *
    omega
  · simp only [overCount, underCount, closeCount] at *
    omega

/-- C8: on an empty score sequence the analyzer emits exactly a
"No data" notice and returns no summary record; when no paired scores
exist the comparison block is skipped silently, the output of
`analyze_by_source` being exactly the two distribution outputs; and
when the flattened session posts are empty the whole session bucket
section is skipped silently, completing with no output.  All the
embedded functions are total on these inputs, so none of the three
missing-data conditions raises or can affect the exit code. -/
theorem c8_no_data_handling (lbl : String) (cal : List CalRecord)
    (hno : pairedOf cal = []) (sessions : List Session)
    (hposts : (sessions.map Session.posts).flatten = []) :
    analyze_distribution [] lbl = ([OutEvent.noData lbl], none) ∧
    (analyze_by_source cal lbl).1 =
      (analyze_distribution (heuristicScoresOf cal)
        (lbl ++ " - Heuristic Scores")).1 ++
      (analyze_distribution (apiScoresOf cal) (lbl ++ " - API Scores")).1 ∧
    session_bucket_report sessions = Except.ok [] := by
  refine ⟨rfl, ?_, ?_⟩
  · simp [analyze_by_source, hno]
  · simp [session_bucket_report, hposts]

theorem c8_no_data_handling_witness :
    analyze_distribution [] "CAL" = ([OutEvent.noData "CAL"], none) ∧
    (analyze_by_source [] "CAL").1 =
      (analyze_distribution (heuristicScoresOf [])
        ("CAL" ++ " - Heuristic Scores")).1 ++
      (analyze_distribution (apiScoresOf []) ("CAL" ++ " - API Scores")).1 ∧
    session_bucket_report [Session.mk []] = Except.ok [] :=
  c8_no_data_handling "CAL" [] rfl [Session.mk []] rfl

/-- The calibration record of the end-to-end scenario:
`{heuristicScore: 30, apiScore: 45, subreddit: "@bob", postId: ""}`. -/
def r9 : CalRecord :=
  ⟨some (JVal.jstr "@bob"), some (JVal.jstr ""), some 30, some (some 45)⟩

/-- Whether some printed line is a "No data" notice for a
Reddit-partition analyzer. -/
def hasRedditNoData (evs : List OutEvent) : Bool :=
  evs.any (fun e =>
    match e with
    | OutEvent.noData l => List.isPrefixOf "REDDIT".toList l.toList
    | _ => false)

/-- C9 counterexample: on the document whose calibration is exactly
`[r9]`, the run succeeds but its output contains no Reddit-partition
"No data" line — the empty Reddit partition is skipped silently, so the
claim that the Reddit-partition analyzers report "No data" is false. -/
theorem c9_reddit_no_data_cex :
    (match main_calibration_report [r9] with
     | Except.ok evs => hasRedditNoData evs
     | Except.error _ => true) = false := by
  rfl

/-- C9 (amended): on the document whose calibration is exactly `[r9]`,
the classifier marks the record as microblogging, so the Twitter
partition holds all calibration data and the Reddit partition is empty;
the report is exactly the platform breakdown (1 Twitter, 0 Reddit)
followed by the Twitter-partition analyses, the Reddit partition being
skipped silently with no output at all. -/
theorem c9_twitter_only_report :
    is_twitter_post r9 = Except.ok true ∧
    main_calibration_report [r9] =
      Except.ok (OutEvent.platformBreakdown 1 0 ::
        (analyze_by_source [r9] "TWITTER").1) :=
  ⟨rfl, rfl⟩

lemma prefix_at_iff (l : List Char) : ['@'] <+: l ↔ l.head? = some '@' := by
  cases l with
  | nil => simp
  | cons c t => simp [List.cons_prefix_cons, eq_comm]

lemma twitterRule_iff (sub pid : String) :
    twitterRule sub pid = true ↔
      (sub.toList.head? = some '@' ∨
        (pid.toList ≠ [] ∧ (∀ c ∈ pid.toList, c.isDigit = true) ∧
         15 < pid.toList.length)) := by
  simp [twitterRule, prefix_at_iff, List.all_eq_true, and_assoc]

/-- The record with `subreddit = "funny"` and `postId = "abc123"` of the
classifier example. -/
def rFunny : CalRecord :=
  ⟨some (JVal.jstr "funny"), some (JVal.jstr "abc123"), none, none⟩

/-- The record refuting the claim's "forum otherwise" clause: a named
non-`@` subreddit together with a 16-digit post id. -/
def funnyLongId : CalRecord :=
  ⟨some (JVal.jstr "funny"), some (JVal.jstr "1111111111111111"), none, none⟩

/-- C1 counterexample: `funnyLongId` has a subreddit that is present,
non-empty and does not start with `@`, so the claim's "otherwise"
clause puts it on the forum side, yet the classifier returns true
(microblogging) because the all-digit rule never looks at
`subreddit`. -/
theorem c1_otherwise_clause_cex :
    is_twitter_post funnyLongId = Except.ok true ∧
    (strField funnyLongId.subreddit).toList.head? ≠ some '@' ∧
    funnyLongId.subreddit ≠ none ∧
    strField funnyLongId.subreddit ≠ "" := by
  refine ⟨rfl, ?_, ?_, ?_⟩ <;> decide

/-- C1 (amended): for every record whose `subreddit` and `postId` fields
are absent or strings, the classifier returns true exactly when the
subreddit string starts with `@` (regardless of `postId`), or when the
`postId` string is non-empty, all digits and longer than 15 characters
(regardless of `subreddit` — in particular when it is absent or empty);
it returns false otherwise, and in particular the record with
`subreddit = "funny"`, `postId = "abc123"` classifies as forum. -/
theorem c1_classifier_rules (r : CalRecord)
    (hs : strOrAbsent r.subreddit = true) (hp : strOrAbsent r.postId = true) :
    (is_twitter_post r = Except.ok true ↔
      ((strField r.subreddit).toList.head? = some '@' ∨
        ((strField r.postId).toList ≠ [] ∧
         (∀ c ∈ (strField r.postId).toList, c.isDigit = true) ∧
         15 < (strField r.postId).toList.length))) ∧
    is_twitter_post rFunny = Except.ok false := by
  refine ⟨?_, rfl⟩
  rw [is_twitter_post_eval r hs hp]
  simp only [Except.ok.injEq]
  exact twitterRule_iff _ _

theorem c1_classifier_rules_witness :
    strOrAbsent rFunny.subreddit = true ∧ strOrAbsent rFunny.postId = true ∧
    ((is_twitter_post rFunny = Except.ok true ↔
      ((strField rFunny.subreddit).toList.head? = some '@' ∨
        ((strField rFunny.postId).toList ≠ [] ∧
         (∀ c ∈ (strField rFunny.postId).toList, c.isDigit = true) ∧
         15 < (strField rFunny.postId).toList.length))) ∧
     is_twitter_post rFunny = Except.ok false) :=
  ⟨by decide, by decide, c1_classifier_rules rFunny (by decide) (by decide)⟩

lemma pyGet_str {f : Option JVal} (hf : strOrAbsent f = true) :
    pyGet f = JVal.jstr (strField f) := by
  rcases f with _ | v
  · rfl
  · rcases v with _ | s | n | b <;> simp_all [strOrAbsent, pyGet, strField]

/-- The record with its missing fields replaced by the empty-string
default the code supplies via `get(k, '')`. -/
def fillMissing (r : CalRecord) : CalRecord :=
  ⟨some (pyGet r.subreddit), some (pyGet r.postId),
   r.heuristicScore, r.apiScore⟩

/-- Whether a Python call completed without raising. -/
def exceptOk {ε α : Type} : Except ε α → Bool
  | Except.ok _ => true
  | Except.error _ => false

/-- C2 counterexample: a record whose `subreddit` key is present with an
explicit null makes `subreddit.startswith('@')` raise
`AttributeError`, so classification does not return a boolean for every
record of arbitrary JSON type. -/
theorem c2_null_subreddit_cex :
    is_twitter_post ⟨some JVal.jnull, none, none, none⟩ =
      Except.error "AttributeError" := rfl

/-- C2 (amended): for every record whose `subreddit` and `postId`
fields are absent or strings, classification completes and returns a
boolean, and missing fields are treated exactly as the empty string; a
present non-string field, such as an explicit null, instead raises
`AttributeError`. -/
theorem c2_no_error_on_strings (r : CalRecord)
    (hs : strOrAbsent r.subreddit = true) (hp : strOrAbsent r.postId = true) :
    exceptOk (is_twitter_post r) = true ∧
    is_twitter_post r = is_twitter_post (fillMissing r) := by
  have h1 : strOrAbsent (fillMissing r).subreddit = true := by
    simp [fillMissing, pyGet_str hs, strOrAbsent]
  have h2 : strOrAbsent (fillMissing r).postId = true := by
    simp [fillMissing, pyGet_str hp, strOrAbsent]
  constructor
  · rw [is_twitter_post_eval r hs hp]
    rfl
  · rw [is_twitter_post_eval r hs hp, is_twitter_post_eval _ h1 h2]
    have e1 : strField (fillMissing r).subreddit = strField r.subreddit := by
      simp [fillMissing, pyGet_str hs, strField]
    have e2 : strField (fillMissing r).postId = strField r.postId := by
      simp [fillMissing, pyGet_str hp, strField]
    rw [e1, e2]

theorem c2_no_error_on_strings_witness :
    strOrAbsent (⟨none, none, none, none⟩ : CalRecord).subreddit = true ∧
    strOrAbsent (⟨none, none, none, none⟩ : CalRecord).postId = true ∧
    (exceptOk (is_twitter_post ⟨none, none, none, none⟩) = true ∧
     is_twitter_post ⟨none, none, none, none⟩ =
       is_twitter_post (fillMissing ⟨none, none, none, none⟩)) :=
  ⟨by decide, by decide,
   c2_no_error_on_strings ⟨none, none, none, none⟩ (by decide) (by decide)⟩
